import Mathlib

set_option maxRecDepth 100000

/-!
Shallow embedding of `src/pipeline.py` from the paper-analysis-system
repository.  Python strings are modelled as `List Char`; every function is
translated statement by statement from the source.  Known slips of the source
are kept as they are (they are what several theorems below are about):
* `chunk_text` executes `chunk.append(chunk)` inside its while-loop, where
  `chunk` is a `str` slice, so the first iteration raises `AttributeError`;
* `parse_metadata` line 129 binds the cleaned line list to `line` instead of
  `lines`, so the raw line list (empty lines included) is what every later
  scan walks over;
* `build_vector_store` line 495 reads `embedding.shape` where the variable
  defined on line 493 is `embeddings`, so every call that finishes the
  chunking loop raises `NameError`;
* `process_all_pdfs` overwrites `stats['total']` but never resets
  `successful`, `failed` or `errors`.
-/

/-- `s.data` of a string literal: the Python `str` as a list of characters. -/
def pyOf (s : String) : List Char := s.data

/-- Python `str.lower()` (ASCII, which is all the repository's inputs use). -/
def lowerC (s : List Char) : List Char := s.map Char.toLower

/-- Python `str.upper()` (ASCII). -/
def upperC (s : List Char) : List Char := s.map Char.toUpper

/-- `pat` is a leading segment of `s` (helper for Python's `in` on strings). -/
def hasPrefixC : List Char → List Char → Bool
  | _, [] => true
  | [], _ :: _ => false
  | a :: s, b :: pat => a == b && hasPrefixC s pat

/-- Python `pat in s` for strings: `pat` occurs contiguously inside `s`. -/
def containsSub (pat : List Char) : List Char → Bool
  | [] => pat.isEmpty
  | c :: t => hasPrefixC (c :: t) pat || containsSub pat t

/-- Python `str.split(sep)` for a one-character separator: always returns at
least one piece, and empty pieces are kept, exactly as in Python. -/
def splitOnChar (sep : Char) : List Char → List (List Char)
  | [] => [[]]
  | c :: cs =>
    if c == sep then [] :: splitOnChar sep cs
    else
      match splitOnChar sep cs with
      | [] => [[c]]
      | h :: t => (c :: h) :: t

/-- Python `str.strip()`: drop leading and trailing whitespace. -/
def stripC (s : List Char) : List Char :=
  ((s.dropWhile Char.isWhitespace).reverse.dropWhile Char.isWhitespace).reverse

/-- Python `sep.join(pieces)` with `sep = " "`. -/
def joinSpace (pieces : List (List Char)) : List Char :=
  List.intercalate [' '] pieces

/-- Python `"\n\n".join(pieces)` as used by `extract_pdf_text`. -/
def joinDoubleNewline (pieces : List (List Char)) : List Char :=
  List.intercalate ['\n', '\n'] pieces

example : splitOnChar '\n' (pyOf "a\nb\n") = [pyOf "a", pyOf "b", pyOf ""] := rfl

example : containsSub (pyOf "RESEARCH") (upperC (pyOf "research article")) = true := rfl

/-- Result of `parse_metadata` (pipeline.py lines 119-123): the dict with keys
`title`, `authors`, `abstract`. -/
structure Metadata where
  title : List Char
  authors : List Char
  abstract : Option (List Char)
deriving Repr, DecidableEq

/-- Lines 137-138 of pipeline.py: `start_index` is 1 when the first raw line
contains one of the publisher-banner tokens (checked on the uppercased line),
else 0.  The Python guard `if lines and ...` is kept even though
`split('\n')` never returns an empty list. -/
def bannerStart (lines : List (List Char)) : Nat :=
  match lines with
  | [] => 0
  | l0 :: _ =>
    let u := upperC l0
    if containsSub (pyOf "RESEARCH") u || containsSub (pyOf "ARTICLE") u
        || containsSub (pyOf "ACCESS") u then 1 else 0

/-- Lines 141-151 of pipeline.py: the title scan over
`range(start_index, min(start_index + 5, len(lines)))`, applied here to
`lines.drop start_index` with fuel 5.  A line with a digit and `*` or `@`
stops the scan, as does a line equal to `abstract` after lowercasing; lines
longer than 10 characters are collected. -/
def collectTitle : Nat → List (List Char) → List (List Char)
  | 0, _ => []
  | _, [] => []
  | fuel + 1, l :: rest =>
    if l.any Char.isDigit && (l.contains '*' || l.contains '@') then []
    else if lowerC l == pyOf "abstract" then []
    else if 10 < l.length then l :: collectTitle fuel rest
    else collectTitle fuel rest

/-- Lines 157-167 of pipeline.py: scan `enumerate(lines[:20])` for the first
line with a digit and a comma or asterisk; if the following raw line (indexed
into the full list) contains `and` after lowercasing, append it; join with
single spaces.  Returns the empty string when no line matches. -/
def authorScan (allLines : List (List Char)) : Nat → List (List Char) → List Char
  | _, [] => []
  | i, l :: rest =>
    if l.any Char.isDigit && (l.contains ',' || l.contains '*') then
      let author_lines :=
        if i + 1 < allLines.length
            && containsSub (pyOf "and") (lowerC (allLines.getD (i + 1) [])) then
          [l, allLines.getD (i + 1) []]
        else [l]
      joinSpace author_lines
    else authorScan allLines (i + 1) rest

/-- Line 186 of pipeline.py: the section markers that stop abstract
accumulation. -/
def section_headers : List (List Char) :=
  [pyOf "background", pyOf "introduction", pyOf "methods", pyOf "keywords",
   pyOf "correspondence"]

/-- Lines 176-180 of pipeline.py: index of the first raw line equal to
`abstract` after lowercasing (`abstract_index`, `none` standing for -1). -/
def findAbstractIdx (lines : List (List Char)) : Option Nat :=
  lines.findIdx? (fun l => lowerC l == pyOf "abstract")

/-- Lines 188-200 of pipeline.py: walk the lines after the header; a line
whose lowercasing contains a section marker stops the walk, a line shorter
than 20 characters is skipped (`continue`), every other line is collected. -/
def collectAbstract : List (List Char) → List (List Char)
  | [] => []
  | l :: rest =>
    let ll := lowerC l
    if section_headers.any (fun h => containsSub h ll) then []
    else if l.length < 20 then collectAbstract rest
    else l :: collectAbstract rest

/-- Lines 176-211 of pipeline.py: the abstract field.  The collected lines
are joined with single spaces and stripped; the result is kept only when its
length exceeds 100, truncated to 3000 characters. -/
def parse_abstract (lines : List (List Char)) : Option (List Char) :=
  match findAbstractIdx lines with
  | none => none
  | some i =>
    if i + 1 < lines.length then
      let abstract_lines := collectAbstract (lines.drop (i + 1))
      if abstract_lines.isEmpty then none
      else
        let abstract_text := stripC (joinSpace abstract_lines)
        if 100 < abstract_text.length then some (abstract_text.take 3000)
        else none
    else none

/-- The abstract body the length gate of lines 202-210 looks at: collected
lines after the header, joined with single spaces and stripped. -/
def abstractBody (lines : List (List Char)) : List Char :=
  match findAbstractIdx lines with
  | none => []
  | some i => stripC (joinSpace (collectAbstract (lines.drop (i + 1))))

/-- pipeline.py lines 106-212, `parse_metadata`.  Line 129 of the source
computes `[line.strip() for line in lines if line.strip()]` but binds it to
`line`, not `lines`, so the cleaned list is discarded and every scan below
walks the raw line list; `text_lower` of line 173 is likewise computed and
never used.  Both dead computations are omitted here and everything else is
kept statement for statement. -/
def parse_metadata (full_text : List Char) : Metadata :=
  let lines := splitOnChar '\n' full_text
  let start_index := bannerStart lines
  let title_lines := collectTitle 5 (lines.drop start_index)
  let title :=
    match title_lines with
    | [] => lines.headD []
    | _ => joinSpace title_lines
  let authors := authorScan lines 0 (lines.take 20)
  let abstract := parse_abstract lines
  ⟨title, authors, abstract⟩

/-- The Python exceptions that the embedded fragments can raise:
`AttributeError` from `chunk.append(chunk)` in `chunk_text` (line 449), and
`NameError` from the undefined `embedding` in `build_vector_store`
(line 495). -/
inductive PyError where
  | attributeError
  | nameError
deriving Repr, DecidableEq

/-- pipeline.py lines 427-455, `chunk_text`.  The while-loop condition is
`start < len(text)` with `start = 0`, so the body runs as soon as the text is
non-empty; the body's third statement is `chunk.append(chunk)` where `chunk`
is the `str` slice `text[start:end]`, and `str` has no attribute `append`, so
that statement raises `AttributeError` on the loop's first iteration and the
function never completes an iteration.  Hence the call raises exactly when
the text is non-empty and otherwise returns the initial empty `chunks` list;
`chunk_size` and `overlap` are never consulted before the raise. -/
def chunk_text (text : List Char) (chunk_size : Int := 1000) (overlap : Int := 200) :
    Except PyError (List (List Char)) :=
  if 0 < text.length then Except.error PyError.attributeError
  else Except.ok []

/-- pipeline.py lines 65-70: the result dict of `extract_pdf_text`. -/
structure ExtractResult where
  text : List Char
  page_count : Nat
  success : Bool
  error : Option (List Char)
deriving Repr, DecidableEq

/-- Behaviour of the external `pypdf` capability for one path: opening may
raise `FileNotFoundError` or another exception; otherwise the reader exposes
a page list, and extracting each page's text may itself raise (message
carried in the `Except`). -/
inductive PdfRead where
  | fileNotFound
  | openError (msg : List Char)
  | opened (pages : List (Except (List Char) (List Char)))

/-- The for-loop of pipeline.py lines 84-87: page texts are accumulated until
a page raises, in which case the exception propagates to the handler. -/
def collectPages : List (Except (List Char) (List Char)) →
    Except (List Char) (List (List Char))
  | [] => Except.ok []
  | Except.error e :: _ => Except.error e
  | Except.ok t :: rest =>
    match collectPages rest with
    | Except.error e => Except.error e
    | Except.ok ts => Except.ok (t :: ts)

/-- pipeline.py lines 62-102, `extract_pdf_text`, as a function of the pdf
capability's behaviour.  The result starts as
`{text: '', page_count: 0, success: False, error: None}`; `page_count` is
assigned right after opening, `text` only after every page extracted, and
`success = True` is the last statement of the `try`, so a raise anywhere
leaves the later fields at their prior values and fills `error`. -/
def extract_pdf_text (pdf_path : List Char) (read : PdfRead) : ExtractResult :=
  match read with
  | PdfRead.fileNotFound =>
    { text := [], page_count := 0, success := false,
      error := some (pyOf "File not found: " ++ pdf_path) }
  | PdfRead.openError msg =>
    { text := [], page_count := 0, success := false,
      error := some (pyOf "Error proccessing PDF: " ++ msg) }
  | PdfRead.opened pages =>
    match collectPages pages with
    | Except.ok texts =>
      { text := joinDoubleNewline texts, page_count := pages.length,
        success := true, error := none }
    | Except.error msg =>
      { text := [], page_count := pages.length, success := false,
        error := some (pyOf "Error proccessing PDF: " ++ msg) }

/-- The `page_count` value `extract_pdf_text`'s result dict holds before any
failure can happen: 0 until the reader is open, the page list's length
afterwards. -/
def prePageCount : PdfRead → Nat
  | PdfRead.fileNotFound => 0
  | PdfRead.openError _ => 0
  | PdfRead.opened pages => pages.length

/-- pipeline.py lines 562-567: the `self.stats` dict of `PaperPipeline`. -/
structure Stats where
  total : Nat
  successful : Nat
  failed : Nat
  errors : List (List Char × List Char)
deriving Repr, DecidableEq

/-- One row of the `documents` table as assembled by `process_single_pdf`
(pipeline.py lines 593-602). -/
structure PaperData where
  filename : List Char
  title : List Char
  authors : List Char
  abstract : Option (List Char)
  full_text : List Char
  page_count : Nat
  file_size : Nat
  status : List Char
deriving Repr, DecidableEq

/-- The pipeline's mutable state: its statistics and the database rows, the
latter standing for the `documents` table `insert_paper` appends to. -/
structure PipelineState where
  stats : Stats
  db : List PaperData
deriving Repr, DecidableEq

/-- The environment of one `process_single_pdf` call: the basename of the
path, the behaviour of the extraction capability, `os.path.getsize`, and
whether `insert_paper` raises (carrying `str(e)` when it does). -/
structure DocJob where
  filename : List Char
  extract : ExtractResult
  file_size : Nat
  insert_error : Option (List Char)

/-- pipeline.py lines 571-615, `process_single_pdf`.  Extraction failure:
`failed` is incremented, `(filename, error)` is appended to `errors`, the
function returns `False` and the database is not touched.  Otherwise the
metadata is parsed, the row assembled with status `SUCCESS`, and the insert
is attempted inside `try`: on success `successful` is incremented and the
row committed, on an exception `failed` is incremented and the error
recorded, with the database unchanged. -/
def process_single_pdf (job : DocJob) (st : PipelineState) :
    Bool × PipelineState :=
  let result := job.extract
  if result.success = false then
    (false,
      { st with stats :=
          { st.stats with
              failed := st.stats.failed + 1
              errors :=
                st.stats.errors ++ [(job.filename, result.error.getD [])] } })
  else
    let metadata := parse_metadata result.text
    let paper_data : PaperData :=
      { filename := job.filename
        title := metadata.title
        authors := metadata.authors
        abstract := metadata.abstract
        full_text := result.text
        page_count := result.page_count
        file_size := job.file_size
        status := pyOf "SUCCESS" }
    match job.insert_error with
    | none =>
      (true,
        { st with
            stats := { st.stats with successful := st.stats.successful + 1 }
            db := st.db ++ [paper_data] })
    | some e =>
      (false,
        { st with stats :=
            { st.stats with
                failed := st.stats.failed + 1
                errors := st.stats.errors ++ [(job.filename, e)] } })

/-- pipeline.py lines 620-665, `process_all_pdfs` over the listed pdf files.
`self.stats['total']` is overwritten with the file count (lines 638); none of
`successful`, `failed`, `errors` is reset.  With no files the method returns
after the warning; otherwise each file goes through `process_single_pdf`. -/
def process_all_pdfs (jobs : List DocJob) (st : PipelineState) : PipelineState :=
  let st1 : PipelineState :=
    { st with stats := { st.stats with total := jobs.length } }
  if jobs.length = 0 then st1
  else jobs.foldl (fun s j => (process_single_pdf j s).2) st1

/-- `self.stats` as initialized by `PaperPipeline.__init__`
(pipeline.py lines 562-567), with an empty `documents` table. -/
def initState : PipelineState :=
  { stats := { total := 0, successful := 0, failed := 0, errors := [] },
    db := [] }

/-- The statistics record `process_single_pdf` appends for a document, when
it appends one: extraction failure records the extraction error, an insert
exception records `str(e)`; a fully successful document records nothing. -/
def failRecord (j : DocJob) : Option (List Char × List Char) :=
  if j.extract.success = false then some (j.filename, j.extract.error.getD [])
  else
    match j.insert_error with
    | some e => some (j.filename, e)
    | none => none

/-- A document that reaches the database: extraction and insert both
succeed. -/
def docOk (j : DocJob) : Bool :=
  j.extract.success && j.insert_error.isNone

/-- The row a fully successful document contributes to the database. -/
def paperDataOf (j : DocJob) : PaperData :=
  { filename := j.filename
    title := (parse_metadata j.extract.text).title
    authors := (parse_metadata j.extract.text).authors
    abstract := (parse_metadata j.extract.text).abstract
    full_text := j.extract.text
    page_count := j.extract.page_count
    file_size := j.file_size
    status := pyOf "SUCCESS" }

/-- One entry of the `chunk_metadata` list built by `build_vector_store`
(pipeline.py lines 479-483): `{paper_id, chunk_text, chunk_index}`. -/
structure ChunkMeta where
  paper_id : Nat
  chunk_text : List Char
  chunk_index : Nat
deriving Repr, DecidableEq

/-- The chunking loop of `build_vector_store` (pipeline.py lines 469-487):
for each `(paper_id, text)` pair, `chunk_text(text)` runs with its default
parameters — raising `AttributeError` as soon as a text is non-empty — and
the returned chunks are appended to `all_chunks` while a catalog entry per
chunk is appended to `chunk_metadata`. -/
def chunkAllPapers : List (Nat × List Char) →
    Except PyError (List (List Char) × List ChunkMeta)
  | [] => Except.ok ([], [])
  | (paper_id, text) :: rest =>
    match chunk_text text with
    | Except.error e => Except.error e
    | Except.ok chunks =>
      match chunkAllPapers rest with
      | Except.error e => Except.error e
      | Except.ok (all_chunks, chunk_metadata) =>
        Except.ok (chunks ++ all_chunks,
          (chunks.enum.map (fun ic => ChunkMeta.mk paper_id ic.2 ic.1))
            ++ chunk_metadata)

/-- pipeline.py lines 458-515, `build_vector_store`.  After the chunking
loop and the chunk-count print, `create_embeddings(all_chunks)` runs (the
external embedder capability; its return value is bound to `embeddings` and
never matters here), and line 495 then evaluates `embedding.shape` in a
print — `embedding` is an undefined name (the variable is `embeddings`), so
every call that finishes the chunking loop raises `NameError`.  Hence the
function never returns: `AttributeError` when some paper text is non-empty,
`NameError` otherwise, the empty corpus included. -/
def build_vector_store (paper_texts : List (Nat × List Char)) :
    Except PyError (List ChunkMeta) :=
  match chunkAllPapers paper_texts with
  | Except.error e => Except.error e
  | Except.ok _ => Except.error PyError.nameError

/-- Modelled from the spec: the retrieval state `PaperPipeline` would keep
for `search` — no index until `build_rag_index` has stored one (spec section
4.7; the bodies of `PaperPipeline.build_rag_index`, `PaperPipeline.search`
and `query_rag` are missing from src/src/pipeline.py, stub declarations
only). -/
structure RagPipeline where
  rag : Option (List ChunkMeta)

/-- Modelled from the spec: `PaperPipeline.build_rag_index`, whose body is
missing from the source, per spec section 4.7: build the vector store over
all persisted full texts — delegating to the `build_vector_store` that is
present in the source — and retain the result for subsequent searches; an
exception propagates and the retained state is not replaced. -/
def build_rag_index (papers : List (Nat × List Char)) (p : RagPipeline) :
    Except PyError RagPipeline :=
  match build_vector_store papers with
  | Except.error e => Except.error e
  | Except.ok chunk_metadata => Except.ok { rag := some chunk_metadata }

/-- The retrieval state right after `PaperPipeline.__init__`: nothing
built. -/
def initRag : RagPipeline := ⟨none⟩

/-- The input text of the spec's metadata-extraction test case. -/
def c5text : List Char :=
  pyOf "RESEARCH ARTICLE\nA Study of Widgets\nJ. Smith 1, K. Lee 2,*\n...\nAbstract\nThis is the abstract body text that is long enough to pass the length threshold repeated to exceed one hundred characters.\nIntroduction\n..."

/-- The abstract body line of `c5text` (122 characters, so it clears the
100-character gate and is untouched by the 3000-character cut). -/
def c5abstract : List Char :=
  pyOf "This is the abstract body text that is long enough to pass the length threshold repeated to exceed one hundred characters."

/-- Claim C1: the claim says `chunk_text("abcdefghij", 4, 2)` returns
`["abcd", "cdef", "efgh", "ghij", "ij"]`; the source instead raises
`AttributeError` on the first loop iteration, at `chunk.append(chunk)` where
`chunk` is a `str`, so no window list is ever produced. -/
theorem chunk_text_attribute_error_on_example :
    chunk_text (pyOf "abcdefghij") 4 2 = Except.error PyError.attributeError :=
  rfl

/-- Claim C2: the claim says every call with `chunk_size - overlap <= 0` is
rejected with a configuration error; the source has no such check — with the
degenerate parameters `chunk_size = overlap = 2` it returns the empty chunk
list on empty text (a result, not a rejection), and on non-empty text it
raises `AttributeError` from the `chunk.append(chunk)` slip (with that slip
fixed it would loop forever). -/
theorem chunk_text_degenerate_params_not_rejected :
    chunk_text (pyOf "") 2 2 = Except.ok []
    ∧ chunk_text (pyOf "a") 2 2 = Except.error PyError.attributeError :=
  ⟨rfl, rfl⟩

/-- Claim C5: on the spec's research-article text, `parse_metadata` returns
title `A Study of Widgets`, an authors string containing
`J. Smith 1, K. Lee 2,*`, and an abstract that is present and does not
contain the word `Introduction`. -/
theorem parse_metadata_research_article_example :
    (parse_metadata c5text).title = pyOf "A Study of Widgets"
    ∧ containsSub (pyOf "J. Smith 1, K. Lee 2,*") (parse_metadata c5text).authors = true
    ∧ (parse_metadata c5text).abstract = some c5abstract
    ∧ containsSub (pyOf "Introduction") c5abstract = false :=
  ⟨rfl, rfl, rfl, rfl⟩

/-- Claim C6: the claim says the up-to-5-line title window counts only
non-empty trimmed lines; in the source the cleaned list of line 129 is bound
to `line` and discarded, so the window walks the raw lines and five blank
lines after a banner exhaust it — the title falls back to the banner line
`RESEARCH` instead of reaching `A Study of Widgets`. -/
theorem title_scan_consumed_by_blank_lines :
    (parse_metadata (pyOf "RESEARCH\n\n\n\n\n\nA Study of Widgets")).title
      = pyOf "RESEARCH" :=
  rfl

/-- Claim C8: `parse_metadata` is total — every input yields a record with
the three fields — and on the empty string the title and authors are empty
and the abstract is `none`. -/
theorem parse_metadata_total_and_empty_input :
    (∀ text, ∃ t a ab, parse_metadata text = Metadata.mk t a ab)
    ∧ parse_metadata [] = Metadata.mk [] [] none :=
  ⟨fun text => ⟨(parse_metadata text).title, (parse_metadata text).authors,
    (parse_metadata text).abstract, rfl⟩, rfl⟩

/-- Claim C3: the claim says that once `build_rag_index` has been called —
even over an empty corpus — `search` returns an empty result list without
raising `IndexNotBuiltError`.  In the source no build can ever succeed:
`build_vector_store` raises `NameError` at line 495 (`embedding.shape`; the
variable is `embeddings`) on every call that finishes the chunking loop, the
empty corpus included, and any corpus with a non-empty document already
raises `AttributeError` inside `chunk_text`.  So `build_rag_index` (modelled
from the spec around the present `build_vector_store`, its own body being a
stub) propagates an exception on every corpus and the claimed post-build
behaviour is unreachable. -/
theorem rag_index_build_never_succeeds :
    build_vector_store [] = Except.error PyError.nameError
    ∧ build_rag_index [] initRag = Except.error PyError.nameError
    ∧ build_vector_store [(1, pyOf "full text of one paper")]
        = Except.error PyError.attributeError
    ∧ build_rag_index [(1, pyOf "full text of one paper")] initRag
        = Except.error PyError.attributeError :=
  ⟨rfl, rfl, rfl, rfl⟩

/-- A document whose extraction and insert both succeed, for exercising the
statistics across corpus passes. -/
def docJobOk : DocJob :=
  { filename := pyOf "a.pdf"
    extract := { text := [], page_count := 1, success := true, error := none }
    file_size := 10
    insert_error := none }

/-- The pipeline state after one `process_all_pdfs` pass over `[docJobOk]`
starting from a fresh pipeline. -/
def passOnce : PipelineState := process_all_pdfs [docJobOk] initState

/-- The pipeline state after a second identical pass. -/
def passTwice : PipelineState := process_all_pdfs [docJobOk] passOnce

/-- Claim C4: the claim says `successful + failed == total` after every
`process_all_pdfs` call because the counters are reset at the start of each
pass; the source overwrites only `total` (line 638) and never resets
`successful`, `failed` or `errors`, so after a second pass over the same
one-document corpus `successful + failed = 2` while `total = 1`.  The
invariant does hold after the first pass on a fresh pipeline. -/
theorem stats_invariant_broken_on_second_pass :
    passOnce.stats.successful + passOnce.stats.failed = passOnce.stats.total
    ∧ passTwice.stats.total = 1
    ∧ passTwice.stats.successful + passTwice.stats.failed = 2 := by
  decide

/-- Claim C10: `extract_pdf_text` always returns a record, `success` is true
exactly when `error` is `None`, and any failure leaves `text` empty and
`page_count` at the value it held before the failing statement (0 before the
reader opens, the page count afterwards). -/
theorem extract_pdf_text_success_error_discipline (pdf_path : List Char)
    (read : PdfRead) :
    ((extract_pdf_text pdf_path read).success = true
      ↔ (extract_pdf_text pdf_path read).error = none)
    ∧ ((extract_pdf_text pdf_path read).success = false →
        (extract_pdf_text pdf_path read).text = []
        ∧ (extract_pdf_text pdf_path read).page_count = prePageCount read) := by
  cases read with
  | fileNotFound => simp [extract_pdf_text, prePageCount]
  | openError msg => simp [extract_pdf_text, prePageCount]
  | opened pages =>
    cases h : collectPages pages <;> simp [extract_pdf_text, prePageCount, h]

/-- Witness for claim C10 at a concrete failing read: the file-not-found
behaviour has `success = false`, and the theorem yields the empty text and
the retained page count there. -/
theorem extract_pdf_text_success_error_discipline_witness :
    (extract_pdf_text (pyOf "missing.pdf") PdfRead.fileNotFound).success = false
    ∧ (extract_pdf_text (pyOf "missing.pdf") PdfRead.fileNotFound).text = []
    ∧ (extract_pdf_text (pyOf "missing.pdf") PdfRead.fileNotFound).page_count
        = prePageCount PdfRead.fileNotFound := by
  have h :=
    (extract_pdf_text_success_error_discipline (pyOf "missing.pdf")
      PdfRead.fileNotFound).2 rfl
  exact ⟨rfl, h.1, h.2⟩

/-- What one `process_single_pdf` call does to the recorded errors, the
failure counter and the database, as a function of the document's fate. -/
theorem process_single_pdf_spec (j : DocJob) (st : PipelineState) :
    ((process_single_pdf j st).2).stats.errors
        = st.stats.errors ++ (failRecord j).toList
    ∧ ((process_single_pdf j st).2).stats.failed
        = st.stats.failed + (failRecord j).toList.length
    ∧ ((process_single_pdf j st).2).db
        = st.db ++ (if docOk j then [paperDataOf j] else []) := by
  cases hs : j.extract.success with
  | false =>
    simp [process_single_pdf, failRecord, docOk, paperDataOf, hs]
  | true =>
    cases hins : j.insert_error with
    | none =>
      simp [process_single_pdf, failRecord, docOk, paperDataOf, hs, hins]
    | some e =>
      simp [process_single_pdf, failRecord, docOk, paperDataOf, hs, hins]

/-- The per-document facts of `process_single_pdf_spec`, folded over a whole
corpus pass. -/
theorem fold_process_spec (jobs : List DocJob) :
    ∀ st : PipelineState,
      (jobs.foldl (fun s j => (process_single_pdf j s).2) st).stats.errors
          = st.stats.errors ++ jobs.filterMap failRecord
      ∧ (jobs.foldl (fun s j => (process_single_pdf j s).2) st).stats.failed
          = st.stats.failed + (jobs.filterMap failRecord).length
      ∧ (jobs.foldl (fun s j => (process_single_pdf j s).2) st).db
          = st.db ++ (jobs.filter docOk).map paperDataOf := by
  induction jobs with
  | nil => intro st; simp
  | cons j rest ih =>
    intro st
    have g := process_single_pdf_spec j st
    have h := ih ((process_single_pdf j st).2)
    simp only [List.foldl_cons]
    refine ⟨?_, ?_, ?_⟩
    · rw [h.1, g.1]
      cases hf : failRecord j <;> simp [hf, List.filterMap_cons]
    · rw [h.2.1, g.2.1]
      cases hf : failRecord j <;> simp [hf, List.filterMap_cons] <;> omega
    · rw [h.2.2, g.2.2]
      cases hd : docOk j <;> simp [hd, List.filter_cons]

/-- Claim C9: over any corpus pass, every document's extraction or insert
error is recorded with its filename and message in processing order, the
failure counter grows by exactly the number of failed documents — so no
failure aborts the pass — and the database receives rows only for documents
whose extraction and insert both succeeded; in particular a document that
fails extraction leaves the database untouched. -/
theorem per_document_failure_isolation (jobs : List DocJob)
    (st : PipelineState) :
    (process_all_pdfs jobs st).stats.errors
        = st.stats.errors ++ jobs.filterMap failRecord
    ∧ (process_all_pdfs jobs st).stats.failed
        = st.stats.failed + (jobs.filterMap failRecord).length
    ∧ (process_all_pdfs jobs st).db
        = st.db ++ (jobs.filter docOk).map paperDataOf := by
  cases jobs with
  | nil => simp [process_all_pdfs]
  | cons j rest =>
    have h := fold_process_spec (j :: rest)
      { st with stats := { st.stats with total := (j :: rest).length } }
    simpa [process_all_pdfs] using h

/-- Claim C7: the abstract of `parse_metadata` is `none` unless the
accumulated body — the collected lines after the exact case-insensitive
`abstract` line, joined with single spaces and stripped — is longer than 100
characters; any returned abstract is at most 3000 characters long; and when
no `abstract` line exists, or it is the last line, the abstract is `none`. -/
theorem abstract_length_gate (text : List Char) :
    (∀ a, (parse_metadata text).abstract = some a →
        100 < (abstractBody (splitOnChar '\n' text)).length ∧ a.length ≤ 3000)
    ∧ (findAbstractIdx (splitOnChar '\n' text) = none →
        (parse_metadata text).abstract = none)
    ∧ (∀ i, findAbstractIdx (splitOnChar '\n' text) = some i →
        i + 1 = (splitOnChar '\n' text).length →
        (parse_metadata text).abstract = none) := by
  have habs : (parse_metadata text).abstract
      = parse_abstract (splitOnChar '\n' text) := rfl
  rw [habs]
  refine ⟨?_, ?_, ?_⟩
  · intro a ha
    cases h : findAbstractIdx (splitOnChar '\n' text) with
    | none => simp [parse_abstract, h] at ha
    | some i =>
      simp only [parse_abstract, h] at ha
      simp only [abstractBody, h]
      split at ha
      · split at ha
        · exact absurd ha (by simp)
        · split at ha
          · rename_i hlen
            refine ⟨hlen, ?_⟩
            have hv := ha
            simp only [Option.some.injEq] at hv
            subst hv
            simp [List.length_take]
          · exact absurd ha (by simp)
      · exact absurd ha (by simp)
  · intro h
    simp [parse_abstract, h]
  · intro i h hlast
    simp only [parse_abstract, h]
    rw [if_neg (by omega)]

/-- A text whose abstract body clears the 100-character gate (110
characters), for applying the gate theorem at a concrete input. -/
def c7some : List Char :=
  pyOf "Abstract\nThe quick brown fox jumps over the lazy dog while the lazy dog watches the quick brown fox jump over it again.\nMethods"

/-- The abstract `parse_metadata` returns on `c7some`. -/
def c7body : List Char :=
  pyOf "The quick brown fox jumps over the lazy dog while the lazy dog watches the quick brown fox jump over it again."

/-- Witness for claim C7 at concrete inputs: a returned abstract whose body
exceeds 100 characters and fits the 3000-character cap, a text with no
`abstract` line, and a text whose `abstract` line is last. -/
theorem abstract_length_gate_witness :
    (parse_metadata c7some).abstract = some c7body
    ∧ (100 < (abstractBody (splitOnChar '\n' c7some)).length
        ∧ c7body.length ≤ 3000)
    ∧ (parse_metadata (pyOf "no header here")).abstract = none
    ∧ (parse_metadata (pyOf "Abstract")).abstract = none := by
  refine ⟨rfl, (abstract_length_gate c7some).1 c7body rfl,
    (abstract_length_gate (pyOf "no header here")).2.1 rfl,
    (abstract_length_gate (pyOf "Abstract")).2.2 0 rfl rfl⟩

